import Mathlib

/-!
Verification development for the odata-active-record repository.

This file gives a shallow embedding of the two pieces of the system the
specification covers: the query-translation layer (the SQLite, MongoDB and
HTTP-OData providers' filter translators and query pipelines) and the
connection pool (retry with exponential backoff, health-check timers,
`removeConnection`, `getConnectionStats`, `closeAll`).

Conventions of the embedding:
* JavaScript runtime values occurring in filters are modelled by `JSValue`
  (numbers as `Int`; `null` and `undefined` are distinct values, as in JS).
* The duck-typed filter-node object `IQueryFilter` is modelled by a record
  carrying all five optional properties, exactly as the TS interface does;
  the translators destructure `field`/`operator`/`value` like the source.
* `switch` statements translate to `match` with a catch-all default arm.
* Mutable `params` arrays become explicit state passing.
* Wall-clock timing (`executionTime`, `uptime`) is not modelled; the
  corresponding fields are either parameters or omitted from metadata.
* The asynchronous `.then` callbacks of `getConnectionStats` are modelled
  by returning, next to the synchronously built stats record, the list of
  probe callbacks that were scheduled but have not run yet.
-/

namespace ODataAR

/-- JavaScript values as they occur in query filters and table rows. -/
inductive JSValue where
  | vNull
  | vUndefined
  | vNum (n : Int)
  | vStr (s : String)
  | vBool (b : Bool)
  | vArr (elems : List JSValue)

open JSValue

mutual

/-- JS template-literal coercion `String(v)` for the values we model. -/
def jsToString : JSValue → String
  | vNull => "null"
  | vUndefined => "undefined"
  | vNum n => toString n
  | vStr s => s
  | vBool true => "true"
  | vBool false => "false"
  | vArr xs => String.intercalate "," (jsToStringList xs)

/-- `String(v)` mapped over the elements of a JS array. -/
def jsToStringList : List JSValue → List String
  | [] => []
  | x :: xs => jsToString x :: jsToStringList xs

end

mutual

/-- Structural equality test on JS values (used to model the equality
semantics of SQL `=` parameters and BSON equality matches). -/
def jsEqB : JSValue → JSValue → Bool
  | vNull, vNull => true
  | vUndefined, vUndefined => true
  | vNum a, vNum b => a == b
  | vStr a, vStr b => a == b
  | vBool a, vBool b => a == b
  | vArr a, vArr b => jsEqListB a b
  | _, _ => false

/-- Pointwise equality test on lists of JS values. -/
def jsEqListB : List JSValue → List JSValue → Bool
  | [], [] => true
  | a :: as, b :: bs => jsEqB a b && jsEqListB as bs
  | _, _ => false

end

instance : BEq JSValue := ⟨jsEqB⟩

/-- The duck-typed `IQueryFilter` object: every property is optional at
runtime. A leaf carries `field`/`operator`/`value`; a composite carries
`logicalOperator`/`children`. Nothing in the type enforces the shape
invariant, exactly as in the TypeScript source. -/
inductive QueryFilter where
  | mk (field : Option String) (op : Option String) (value : JSValue)
       (logicalOperator : Option String) (children : Option (List QueryFilter))

/-- `field` property of a filter node. -/
def QueryFilter.field : QueryFilter → Option String
  | .mk f _ _ _ _ => f

/-- `operator` property of a filter node. -/
def QueryFilter.op : QueryFilter → Option String
  | .mk _ o _ _ _ => o

/-- `value` property of a filter node. -/
def QueryFilter.value : QueryFilter → JSValue
  | .mk _ _ v _ _ => v

/-- `logicalOperator` property of a filter node. -/
def QueryFilter.logicalOperator : QueryFilter → Option String
  | .mk _ _ _ l _ => l

/-- `children` property of a filter node. -/
def QueryFilter.children : QueryFilter → Option (List QueryFilter)
  | .mk _ _ _ _ c => c

/-- A leaf filter node, the shape produced for a single `where` call. -/
def mkLeaf (f : String) (o : String) (v : JSValue) : QueryFilter :=
  QueryFilter.mk (some f) (some o) v none none

/-- A composite node in the shape the specification describes:
only `logicalOperator` and `children` are present. -/
def mkComposite (lop : String) (cs : List QueryFilter) : QueryFilter :=
  QueryFilter.mk none none vUndefined (some lop) (some cs)

/-- Interpolating a possibly-absent field name into a template string:
JavaScript renders `undefined` as the text "undefined". -/
def fieldStr : Option String → String
  | some s => s
  | none => "undefined"

/-- `Array.isArray(value) ? value : [value]` . -/
def asArray : JSValue → List JSValue
  | vArr xs => xs
  | v => [v]

/-- `SQLiteProvider.convertODataFilterToSQL` (part_007, lines 756-802):
destructures `field`/`operator`/`value`, switches on the operator and
pushes bound parameters. The mutated `params` array is passed and
returned explicitly. There is no case for composite nodes: a node whose
`operator` is absent or unrecognised falls into the `default` arm, which
translates it as an equality test. -/
def convertODataFilterToSQL (filter : QueryFilter) (params : List JSValue) :
    String × List JSValue :=
  let f := fieldStr filter.field
  let v := filter.value
  match filter.op with
  | none => (f ++ " = ?", params ++ [v])
  | some o =>
      if o = "eq" then (f ++ " = ?", params ++ [v])
      else if o = "ne" then (f ++ " != ?", params ++ [v])
      else if o = "gt" then (f ++ " > ?", params ++ [v])
      else if o = "ge" then (f ++ " >= ?", params ++ [v])
      else if o = "lt" then (f ++ " < ?", params ++ [v])
      else if o = "le" then (f ++ " <= ?", params ++ [v])
      else if o = "contains" then
        (f ++ " LIKE ?", params ++ [vStr ("%" ++ jsToString v ++ "%")])
      else if o = "startswith" then
        (f ++ " LIKE ?", params ++ [vStr (jsToString v ++ "%")])
      else if o = "endswith" then
        (f ++ " LIKE ?", params ++ [vStr ("%" ++ jsToString v)])
      else if o = "in" then
        (f ++ " IN (" ++
          String.intercalate ", " ((asArray v).map (fun _ => "?")) ++ ")",
         params ++ asArray v)
      else if o = "notin" then
        (f ++ " NOT IN (" ++
          String.intercalate ", " ((asArray v).map (fun _ => "?")) ++ ")",
         params ++ asArray v)
      else (f ++ " = ?", params ++ [v])

/-- One condition attached to a document field in a MongoDB filter object. -/
inductive MongoCond where
  | value (v : JSValue)
  | cmp (o : String) (v : JSValue)
  | regex (pattern : JSValue) (options : String)
  | inList (o : String) (vs : List JSValue)

/-- A MongoDB filter object: entries of an object literal, each keying a
field name to a condition. -/
abbrev MongoFilter := List (String × MongoCond)

/-- `MongoDBProvider.convertODataFilterToMongo` (part_008, lines 646-677).
Like the SQLite translator it destructures the node as a leaf; a composite
or unknown operator falls into the `default` arm `[field]: value`. The JS
computed key renders an absent field as the string "undefined". -/
def convertODataFilterToMongo (filter : QueryFilter) : MongoFilter :=
  let f := fieldStr filter.field
  let v := filter.value
  match filter.op with
  | none => [(f, .value v)]
  | some o =>
      if o = "eq" then [(f, .value v)]
      else if o = "ne" then [(f, .cmp "$ne" v)]
      else if o = "gt" then [(f, .cmp "$gt" v)]
      else if o = "ge" then [(f, .cmp "$gte" v)]
      else if o = "lt" then [(f, .cmp "$lt" v)]
      else if o = "le" then [(f, .cmp "$lte" v)]
      else if o = "contains" then [(f, .regex v "i")]
      else if o = "startswith" then [(f, .regex (vStr ("^" ++ jsToString v)) "i")]
      else if o = "endswith" then [(f, .regex (vStr (jsToString v ++ "$")) "i")]
      else if o = "in" then [(f, .inList "$in" (asArray v))]
      else if o = "notin" then [(f, .inList "$nin" (asArray v))]
      else [(f, .value v)]

/-- JS `value.replace(/'/g, "''")`: double every single quote. -/
def escapeSingleQuotes (s : String) : String :=
  String.join (s.data.map fun c =>
    if c = Char.ofNat 39 then "''" else String.singleton c)

mutual

/-- `JSON.stringify` for the modelled value space (string escaping inside
JSON is elided; this branch is only reachable for arrays and objects). -/
def jsonStringify : JSValue → String
  | vNull => "null"
  | vUndefined => "null"
  | vNum n => toString n
  | vStr s => "\"" ++ s ++ "\""
  | vBool true => "true"
  | vBool false => "false"
  | vArr xs => "[" ++ String.intercalate "," (jsonStringifyList xs) ++ "]"

/-- `JSON.stringify` mapped over array elements. -/
def jsonStringifyList : List JSValue → List String
  | [] => []
  | x :: xs => jsonStringify x :: jsonStringifyList xs

end

/-- `HTTPODataProvider.formatODataValue` (part_006, lines 551-573). -/
def formatODataValue : JSValue → String
  | vNull => "null"
  | vUndefined => "null"
  | vStr s => "'" ++ escapeSingleQuotes s ++ "'"
  | vNum n => toString n
  | vBool true => "true"
  | vBool false => "false"
  | vArr xs => "'" ++ escapeSingleQuotes (jsonStringify (vArr xs)) ++ "'"

/-- `HTTPODataProvider.convertFilterToOData` (part_006, lines 518-549).
Again leaf-only; note that unlike the other two translators it has no
`notin` case at all, so `notin` also falls into the default equality arm. -/
def convertFilterToOData (filter : QueryFilter) : String :=
  let f := fieldStr filter.field
  let v := filter.value
  match filter.op with
  | none => f ++ " eq " ++ formatODataValue v
  | some o =>
      if o = "eq" then f ++ " eq " ++ formatODataValue v
      else if o = "ne" then f ++ " ne " ++ formatODataValue v
      else if o = "gt" then f ++ " gt " ++ formatODataValue v
      else if o = "ge" then f ++ " ge " ++ formatODataValue v
      else if o = "lt" then f ++ " lt " ++ formatODataValue v
      else if o = "le" then f ++ " le " ++ formatODataValue v
      else if o = "contains" then "contains(" ++ f ++ ", " ++ formatODataValue v ++ ")"
      else if o = "startswith" then
        "startswith(" ++ f ++ ", " ++ formatODataValue v ++ ")"
      else if o = "endswith" then "endswith(" ++ f ++ ", " ++ formatODataValue v ++ ")"
      else if o = "in" then
        f ++ " in (" ++ String.intercalate "," ((asArray v).map formatODataValue) ++ ")"
      else f ++ " eq " ++ formatODataValue v

/-- `select` clause of a `Query` (`IQuerySelect`). -/
structure SelectSpec where
  fields : Option (List String)
  exclude : Bool

/-- One `orderBy` entry (`IQueryOrder`). -/
structure OrderSpec where
  field : String
  direction : String

/-- `pagination` clause of a `Query`; both members are optional. -/
structure Pagination where
  skip : Option Int
  take : Option Int

/-- The backend-neutral `Query` value consumed by every translator. -/
structure Query where
  filter : Option QueryFilter
  select : Option SelectSpec
  orderBy : Option (List OrderSpec)
  pagination : Option Pagination

/-- JS truthiness of an optional numeric property (`undefined` and `0`
are falsy). -/
def truthyInt : Option Int → Bool
  | some n => n != 0
  | none => false

/-- Characters `encodeURIComponent` leaves unencoded
(ECMA-262: alphanumerics and `- _ . ! ~ * ' ( )`). -/
def isUnreservedURIChar (c : Char) : Bool :=
  c.isAlphanum || c = '-' || c = '_' || c = '.' || c = '!' || c = '~' ||
    c = '*' || c = Char.ofNat 39 || c = '(' || c = ')'

/-- Upper-case hexadecimal digit for a value below 16. -/
def hexDigitChar (n : Nat) : Char :=
  if n < 10 then Char.ofNat (48 + n) else Char.ofNat (55 + n)

/-- UTF-8 bytes of a character (code-point arithmetic). -/
def utf8Bytes (c : Char) : List Nat :=
  let n := c.toNat
  if n < 128 then [n]
  else if n < 2048 then [192 + n / 64, 128 + n % 64]
  else if n < 65536 then [224 + n / 4096, 128 + (n / 64) % 64, 128 + n % 64]
  else [240 + n / 262144, 128 + (n / 4096) % 64, 128 + (n / 64) % 64, 128 + n % 64]

/-- Percent-encoding of one byte, upper-case hex. -/
def percentByte (b : Nat) : String :=
  "%" ++ String.singleton (hexDigitChar (b / 16)) ++ String.singleton (hexDigitChar (b % 16))

/-- JavaScript's `encodeURIComponent`. -/
def encodeURIComponent (s : String) : String :=
  String.join (s.data.map fun c =>
    if isUnreservedURIChar c then String.singleton c
    else String.join ((utf8Bytes c).map percentByte))

/-- `HTTPODataProvider.buildODataQueryString` (part_006, lines 477-516):
collects `$filter`, `$select`, `$orderby`, `$top`, `$skip` (the numeric
ones only when truthy) and always appends `$count=true`, then joins with
`&` behind a `?`. -/
def buildODataQueryString (q : Query) : String :=
  let params : List String := []
  let params := match q.filter with
    | some f =>
        let filterString := convertFilterToOData f
        if filterString != "" then
          params ++ ["$filter=" ++ encodeURIComponent filterString]
        else params
    | none => params
  let params := match q.select with
    | some sel => match sel.fields with
      | some fields =>
          params ++ ["$select=" ++ encodeURIComponent (String.intercalate "," fields)]
      | none => params
    | none => params
  let params := match q.orderBy with
    | some specs =>
        let orderString :=
          String.intercalate "," (specs.map (fun o => o.field ++ " " ++ o.direction))
        params ++ ["$orderby=" ++ encodeURIComponent orderString]
    | none => params
  let params := match q.pagination with
    | some p =>
        let params := if truthyInt p.take then
            params ++ ["$top=" ++ toString ((p.take).getD 0)]
          else params
        if truthyInt p.skip then
          params ++ ["$skip=" ++ toString ((p.skip).getD 0)]
        else params
    | none => params
  let params := params ++ ["$count=true"]
  if params.length > 0 then "?" ++ String.intercalate "&" params else ""

/-- JS `String.prototype.replace` with a string pattern replaces only the
first occurrence. -/
def jsReplaceFirst (s pat rep : String) : String :=
  match s.splitOn pat with
  | [] => s
  | [_] => s
  | x :: rest => x ++ rep ++ String.intercalate pat rest

/-- `ORDER BY` clause text built by `SQLiteProvider.executeQuery`. -/
def orderByClause (specs : List OrderSpec) : String :=
  String.intercalate ", " (specs.map (fun o => o.field ++ " " ++ o.direction.toUpper))

/-- `query.pagination.take || 50`: the `LIMIT` value the SQLite provider
uses when a pagination object is present. -/
def sqliteLimitValue (p : Pagination) : Int :=
  match p.take with
  | some t => if t != 0 then t else 50
  | none => 50

/-- `OFFSET` text appended by the SQLite provider when `skip` is truthy. -/
def sqliteOffsetSuffix (p : Pagination) : String :=
  match p.skip with
  | some k => if k != 0 then " OFFSET " ++ toString k else ""
  | none => ""

/-- Pagination suffix of the generated SQL (empty when the query has no
pagination object). -/
def sqlitePaginationSuffix (q : Query) : String :=
  match q.pagination with
  | none => ""
  | some p => " LIMIT " ++ toString (sqliteLimitValue p) ++ sqliteOffsetSuffix p

/-- The part of the SQL text `SQLiteProvider.executeQuery` builds before
pagination: base select, `WHERE` from the filter translator, the `*`
replaced by the selected fields (JS `replace` on the first `*`), and
`ORDER BY`. -/
def sqliteCoreSQL (entityName : String) (q : Query) : String :=
  let sql := "SELECT * FROM " ++ entityName
  let sql := match q.filter with
    | some f => sql ++ " WHERE " ++ (convertODataFilterToSQL f []).1
    | none => sql
  let sql := match q.select with
    | some sel => match sel.fields with
      | some fields => jsReplaceFirst sql "*" (String.intercalate ", " fields)
      | none => sql
    | none => sql
  match q.orderBy with
  | some specs => sql ++ " ORDER BY " ++ orderByClause specs
  | none => sql

/-- Full SQL text generated by `SQLiteProvider.executeQuery`
(part_007, lines 170-199). -/
def sqliteSQL (entityName : String) (q : Query) : String :=
  sqliteCoreSQL entityName q ++ sqlitePaginationSuffix q

/-- Bound-parameter list accompanying `sqliteSQL` (filled only by the
filter translator; the code passes a fresh empty array). -/
def sqliteParams (q : Query) : List JSValue :=
  match q.filter with
  | some f => (convertODataFilterToSQL f []).2
  | none => []

/-- A stored row / document: field name to value. -/
abbrev Row := List (String × JSValue)

/-- Value of a field in a row; an absent field reads as `undefined`
(for SQLite every declared column is present in every row). -/
def rowLookup (r : Row) (f : String) : JSValue :=
  match r.lookup f with
  | some v => v
  | none => vUndefined

/-- A SQLite table: declared column names plus the stored rows. -/
structure Table where
  cols : List String
  rows : List Row

/-- The structured error object (`IUserFriendlyError`); `suggestion` is an
optional property in the TS interface. -/
structure UserFriendlyError where
  code : String
  message : String
  suggestion : Option String
  severity : String
  actionable : Bool
  deriving Repr, DecidableEq

/-- `metadata` of an `IQueryResult`. Wall-clock `executionTime` is not
modelled. -/
structure QueryMetadata where
  count : Nat
  cacheStatus : String
  deriving Repr, DecidableEq

/-- The `IQueryResult` record (`data`, `success`, `errors`, `metadata`). -/
structure QueryResult where
  data : List Row
  success : Bool
  errors : List UserFriendlyError
  metadata : QueryMetadata

/-- Total order used for `<`/`>` comparisons in the modelled backends:
numbers and strings compare within their type, every cross-type or
non-comparable pair compares false. -/
def jsLtB : JSValue → JSValue → Bool
  | vNum a, vNum b => a < b
  | vStr a, vStr b => a < b
  | _, _ => false

/-- SQL equality of a column value with a bound parameter: any comparison
involving `NULL` is not true. `undefined` binds as `NULL`. -/
def sqlEqB : JSValue → JSValue → Bool
  | vNull, _ => false
  | vUndefined, _ => false
  | _, vNull => false
  | _, vUndefined => false
  | a, b => jsEqB a b

/-- Boolean prefix test on character lists. -/
def charsPrefixB : List Char → List Char → Bool
  | [], _ => true
  | _ :: _, [] => false
  | x :: xs, y :: ys => x == y && charsPrefixB xs ys

/-- Boolean infix (substring) test on character lists. -/
def charsInfixB (needle : List Char) : List Char → Bool
  | [] => needle.isEmpty
  | y :: ys => charsPrefixB needle (y :: ys) || charsInfixB needle ys

/-- Case-insensitive substring test. -/
def strContainsCI (hay needle : String) : Bool :=
  charsInfixB needle.toLower.data hay.toLower.data

/-- Case-insensitive prefix test. -/
def strStartsCI (hay needle : String) : Bool :=
  charsPrefixB needle.toLower.data hay.toLower.data

/-- Case-insensitive suffix test. -/
def strEndsCI (hay needle : String) : Bool :=
  charsPrefixB needle.toLower.data.reverse hay.toLower.data.reverse

/-- Row semantics of the parameterized `WHERE` fragment emitted by
`convertODataFilterToSQL`: each arm states what SQLite makes of the
fragment that arm of the translator produced (comparison with the bound
parameter, `LIKE` with the pushed pattern — SQLite `LIKE` is
case-insensitive — `IN` over the expanded parameters). The default arm
mirrors the translator's default `field = ?`. -/
def evalSqliteWhere (filter : QueryFilter) (row : Row) : Bool :=
  let x := rowLookup row (fieldStr filter.field)
  let v := filter.value
  match filter.op with
  | some "eq" => sqlEqB x v
  | some "ne" => sqlEqB x v = false && x != vNull && x != vUndefined &&
      v != vNull && v != vUndefined
  | some "gt" => jsLtB v x
  | some "ge" => jsLtB v x || jsEqB x v
  | some "lt" => jsLtB x v
  | some "le" => jsLtB x v || jsEqB x v
  | some "contains" => strContainsCI (jsToString x) (jsToString v)
  | some "startswith" => strStartsCI (jsToString x) (jsToString v)
  | some "endswith" => strEndsCI (jsToString x) (jsToString v)
  | some "in" => (asArray v).any (fun w => sqlEqB x w)
  | some "notin" => (asArray v).all (fun w => sqlEqB x w = false) &&
      x != vNull && x != vUndefined
  | _ => sqlEqB x v

/-- Stable insertion of one element into a sorted list. -/
def insertSortedBy (le : α → α → Bool) (x : α) : List α → List α
  | [] => [x]
  | y :: ys => if le y x then y :: insertSortedBy le x ys else x :: y :: ys

/-- Stable insertion sort (models the backend's order-by; no claim in this
development depends on the resulting order, only on the row count). -/
def isortBy (le : α → α → Bool) : List α → List α
  | [] => []
  | x :: xs => insertSortedBy le x (isortBy le xs)

/-- Comparator for one order-by entry; any direction other than
descending sorts ascending. -/
def orderLe (o : OrderSpec) (a b : Row) : Bool :=
  let x := rowLookup a o.field
  let y := rowLookup b o.field
  if o.direction = "desc" then jsLtB y x || jsEqB x y
  else jsLtB x y || jsEqB x y

/-- Multi-key sort: sort by the last key first so earlier keys dominate. -/
def sortRows (specs : List OrderSpec) (rows : List Row) : List Row :=
  specs.reverse.foldl (fun rs o => isortBy (orderLe o) rs) rows

/-- Column projection for `SELECT f1, f2`. -/
def projectRow (fields : List String) (r : Row) : Row :=
  fields.map (fun f => (f, rowLookup r f))

/-- Columns the generated SQL references: the (single) field the filter
translator interpolated, the selected fields, and the order-by fields. -/
def referencedColumns (q : Query) : List String :=
  (match q.filter with
    | some f => [fieldStr f.field]
    | none => []) ++
  (match q.select with
    | some sel => sel.fields.getD []
    | none => []) ++
  (match q.orderBy with
    | some specs => specs.map OrderSpec.field
    | none => [])

/-- Prepare-time failure of the generated statement: `better-sqlite3`
throws at `prepare` when the statement references a column the table does
not declare (this models the only failure mode reachable through the
pure query pipeline). -/
def sqlitePrepareError (table : Table) (q : Query) : Option String :=
  match (referencedColumns q).find? (fun c => !(table.cols.contains c)) with
  | some c => some ("no such column: " ++ c)
  | none => none

/-- The result object built in the `catch` branch of
`SQLiteProvider.executeQuery` (part_007, lines 217-234). Note: it has no
`suggestion` property. -/
def sqliteQueryFailure (msg : String) : QueryResult :=
  { data := []
    success := false
    errors := [{ code := "QUERY_EXECUTION_FAILED"
                 message := "Query execution failed: " ++ msg
                 suggestion := none
                 severity := "error"
                 actionable := true }]
    metadata := { count := 0, cacheStatus := "miss" } }

/-- Rows surviving the generated `WHERE` clause. -/
def sqliteWhereRows (table : Table) (q : Query) : List Row :=
  match q.filter with
  | some f => table.rows.filter (evalSqliteWhere f)
  | none => table.rows

/-- Rows after `ORDER BY`. -/
def sqliteOrderedRows (table : Table) (q : Query) : List Row :=
  match q.orderBy with
  | some specs => sortRows specs (sqliteWhereRows table q)
  | none => sqliteWhereRows table q

/-- Rows after the `OFFSET` part of the pagination suffix
(`OFFSET` is only emitted when `skip` is truthy). -/
def sqliteSkippedRows (table : Table) (q : Query) : List Row :=
  match q.pagination with
  | some p =>
      (match p.skip with
        | some k =>
            if k != 0 then (sqliteOrderedRows table q).drop k.toNat
            else sqliteOrderedRows table q
        | none => sqliteOrderedRows table q)
  | none => sqliteOrderedRows table q

/-- Rows after `LIMIT`/`OFFSET` (a negative `LIMIT` means no limit in
SQLite). -/
def sqlitePagedRows (table : Table) (q : Query) : List Row :=
  match q.pagination with
  | some p =>
      if sqliteLimitValue p < 0 then sqliteSkippedRows table q
      else (sqliteSkippedRows table q).take (sqliteLimitValue p).toNat
  | none => sqliteSkippedRows table q

/-- Rows returned by running the generated SQL: `WHERE`, `ORDER BY`,
`LIMIT`/`OFFSET`, then the column projection of the `SELECT` list. -/
def sqliteRunRows (table : Table) (q : Query) : List Row :=
  match q.select with
  | some sel => match sel.fields with
    | some fields => (sqlitePagedRows table q).map (projectRow fields)
    | none => sqlitePagedRows table q
  | none => sqlitePagedRows table q

/-- `SQLiteProvider.executeQuery` (part_007, lines 162-235): builds the
SQL via the translator, runs it, and returns the page as `data` while
`metadata.count` comes from a separate `SELECT COUNT(*) FROM entity`
over the whole table. A thrown backend error is caught and converted by
`sqliteQueryFailure`. -/
def sqliteExecuteQuery (table : Table) (entityName : String) (q : Query) :
    QueryResult :=
  let _sql := sqliteSQL entityName q
  match sqlitePrepareError table q with
  | some msg => sqliteQueryFailure msg
  | none =>
      { data := sqliteRunRows table q
        success := true
        errors := []
        metadata := { count := table.rows.length, cacheStatus := "miss" } }

/-- BSON equality match: querying a field for `null` (or `undefined`)
also matches documents where the field is missing or null. -/
def mongoEqMatch (docVal queryVal : JSValue) : Bool :=
  match queryVal with
  | vNull => docVal == vNull || docVal == vUndefined
  | vUndefined => docVal == vNull || docVal == vUndefined
  | w => jsEqB docVal w

/-- Semantics of the regex conditions this translator emits: the pattern
is `v`, `^v` or `v$` with the `i` option, i.e. case-insensitive
substring, prefix or suffix of a string field. A non-string pattern or
field never matches in this model. -/
def mongoRegexMatch (docVal pattern : JSValue) : Bool :=
  match docVal, pattern with
  | vStr s, vStr p =>
      if p.startsWith "^" then strStartsCI s (p.drop 1)
      else if p.endsWith "$" then strEndsCI s (p.dropRight 1)
      else strContainsCI s p
  | _, _ => false

/-- Whether a document value satisfies one Mongo condition. -/
def mongoCondMatch (docVal : JSValue) : MongoCond → Bool
  | .value w => mongoEqMatch docVal w
  | .cmp o w =>
      if o = "$ne" then mongoEqMatch docVal w = false
      else if o = "$gt" then jsLtB w docVal
      else if o = "$gte" then jsLtB w docVal || jsEqB docVal w
      else if o = "$lt" then jsLtB docVal w
      else if o = "$lte" then jsLtB docVal w || jsEqB docVal w
      else false
  | .regex p _ => mongoRegexMatch docVal p
  | .inList o ws =>
      if o = "$in" then ws.any (mongoEqMatch docVal)
      else if o = "$nin" then ws.all (fun w => mongoEqMatch docVal w = false)
      else false

/-- Whether a document satisfies a Mongo filter object (conjunction of
its entries). -/
def mongoMatches (filterDoc : MongoFilter) (doc : Row) : Bool :=
  filterDoc.all (fun e => mongoCondMatch (rowLookup doc e.1) e.2)

/-- The Mongo filter object `executeQuery` ends up passing to `find` /
`countDocuments` (empty object when the query has no filter). -/
def mongoFilterDoc (q : Query) : MongoFilter :=
  match q.filter with
  | some f => convertODataFilterToMongo f
  | none => []

/-- `query.pagination?.take || 50`: the cursor limit (applied whenever
positive, so even a query without pagination is capped at 50). -/
def mongoLimitValue (q : Query) : Int :=
  match q.pagination with
  | some p =>
      (match p.take with
        | some t => if t != 0 then t else 50
        | none => 50)
  | none => 50

/-- `query.pagination?.skip || 0`. -/
def mongoSkipValue (q : Query) : Int :=
  match q.pagination with
  | some p =>
      (match p.skip with
        | some k => if k != 0 then k else 0
        | none => 0)
  | none => 0

/-- Documents matching the translated filter (what `countDocuments`
counts). -/
def mongoMatchedRows (docs : List Row) (q : Query) : List Row :=
  docs.filter (mongoMatches (mongoFilterDoc q))

/-- Inclusion projection built by `MongoDBProvider.executeQuery`: the
selected fields, with `_id` kept only when `select.exclude` is truthy. -/
def mongoProjectRow (fields : List String) (keepId : Bool) (r : Row) : Row :=
  (projectRow fields r) ++ (if keepId then [("_id", rowLookup r "_id")] else [])

/-- Matching documents after the cursor sort. -/
def mongoOrderedRows (docs : List Row) (q : Query) : List Row :=
  match q.orderBy with
  | some specs => sortRows specs (mongoMatchedRows docs q)
  | none => mongoMatchedRows docs q

/-- Documents after `cursor.skip`, applied only when the value is
positive. -/
def mongoSkippedRows (docs : List Row) (q : Query) : List Row :=
  if mongoSkipValue q > 0 then (mongoOrderedRows docs q).drop (mongoSkipValue q).toNat
  else mongoOrderedRows docs q

/-- Documents after `cursor.limit`, applied only when the value is
positive. -/
def mongoPagedRows (docs : List Row) (q : Query) : List Row :=
  if mongoLimitValue q > 0 then (mongoSkippedRows docs q).take (mongoLimitValue q).toNat
  else mongoSkippedRows docs q

/-- The page of documents the cursor yields: filter, sort,
`skip`/`limit`, then projection. -/
def mongoRunRows (docs : List Row) (q : Query) : List Row :=
  match q.select with
  | some sel => match sel.fields with
    | some fields => (mongoPagedRows docs q).map (mongoProjectRow fields sel.exclude)
    | none => mongoPagedRows docs q
  | none => mongoPagedRows docs q

/-- The result object built in the `catch` branch of
`MongoDBProvider.executeQuery` (part_008, lines 229-246); again no
`suggestion` property. -/
def mongoQueryFailure (msg : String) : QueryResult :=
  { data := []
    success := false
    errors := [{ code := "QUERY_EXECUTION_FAILED"
                 message := "Query execution failed: " ++ msg
                 suggestion := none
                 severity := "error"
                 actionable := true }]
    metadata := { count := 0, cacheStatus := "miss" } }

/-- `MongoDBProvider.executeQuery` (part_008, lines 160-247). The driver
call can fail for external reasons (network, server); that possibility is
the `driverError` parameter. On success, `data` is the cursor page and
`metadata.count` is `countDocuments(mongoQuery)` — the number of
documents matching the filter, not the page length. -/
def mongoExecuteQuery (driverError : Option String) (docs : List Row)
    (entityName : String) (q : Query) : QueryResult :=
  let _collection := entityName
  match driverError with
  | some msg => mongoQueryFailure msg
  | none =>
      { data := mongoRunRows docs q
        success := true
        errors := []
        metadata := { count := (mongoMatchedRows docs q).length
                      cacheStatus := "miss" } }

/-- A backend connection handle (opaque to the pool's callers). -/
abbrev ConnHandle := Nat

/-- `IConnectionConfig` as far as the pool inspects it. -/
structure ConnectionConfig where
  ctype : String
  deriving Repr, DecidableEq

/-- The mutable fields of `ConnectionPool` (connection-pool.ts, lines
6-17). JS `Map`s become association lists with unique keys;
`healthChecks` keeps only which ids have a live per-connection timer.
`globalSweepActive` stands for the pool-wide sweep interval started by
`startHealthChecks()` in the constructor, whose handle the code never
stores or clears. -/
structure PoolState where
  connections : List (String × ConnHandle)
  connectionConfigs : List (String × ConnectionConfig)
  retryAttempts : List (String × Nat)
  healthChecks : List String
  globalSweepActive : Bool

/-- `Map.delete` (and key-overwrite preparation). -/
def mapDelete (m : List (String × α)) (k : String) : List (String × α) :=
  m.filter (fun e => e.1 ≠ k)

/-- `Map.set` (insertion order of re-set keys is not modelled). -/
def mapSet (m : List (String × α)) (k : String) (v : α) : List (String × α) :=
  mapDelete m k ++ [(k, v)]

/-- The pool state the constructor produces: empty maps, pool-wide
sweep timer running. -/
def newPool : PoolState :=
  { connections := []
    connectionConfigs := []
    retryAttempts := []
    healthChecks := []
    globalSweepActive := true }

/-- `maxRetries` default (connection-pool.ts, line 11). -/
def maxRetries : Nat := 3

/-- `retryDelay` default in milliseconds (line 12). -/
def retryDelay : Nat := 1000

/-- `maxRetries + 1` total attempts (line 34). -/
def maxAttempts : Nat := maxRetries + 1

/-- The fatal error message thrown after exhausting all attempts
(line 66); `msg` is the message of the last underlying failure. -/
def fatalMessage (connectionId msg : String) : String :=
  "Failed to establish connection " ++ connectionId ++ " after " ++
    toString maxAttempts ++ " attempts: " ++ msg

/-- `startConnectionHealthCheck` (lines 160-179): clears any existing
per-connection timer for the id and starts a new one. -/
def startConnectionHealthCheck (connectionId : String) (st : PoolState) :
    PoolState :=
  { st with healthChecks :=
      (st.healthChecks.filter (fun h => h ≠ connectionId)) ++ [connectionId] }

/-- Everything observable about one `createConnectionWithRetry` run: the
final pool state, the returned handle or thrown error, how many times the
connector ran, and the backoff delays slept between consecutive
attempts. -/
structure ConnectOutcome where
  state : PoolState
  result : Except String ConnHandle
  invocations : Nat
  delays : List Nat

/-- State update of the success branch (lines 40-46): store connection
and config, reset the retry counter to 0, start the per-connection
health check. -/
def storeConnection (connectionId : String) (config : ConnectionConfig)
    (conn : ConnHandle) (st : PoolState) : PoolState :=
  startConnectionHealthCheck connectionId
    { st with
      connections := mapSet st.connections connectionId conn
      connectionConfigs := mapSet st.connectionConfigs connectionId config
      retryAttempts := mapSet st.retryAttempts connectionId 0 }

/-- State update of the failure branch (lines 53-54): increment the
stored retry counter for the id. -/
def bumpRetry (connectionId : String) (st : PoolState) : PoolState :=
  let currentRetries := (st.retryAttempts.lookup connectionId).getD 0
  { st with retryAttempts := mapSet st.retryAttempts connectionId (currentRetries + 1) }

/-- The attempt loop of `createConnectionWithRetry` (lines 36-64),
written as recursion over the list of remaining attempt numbers
(`for attempt = 1..maxAttempts`). `connector a` is the result of the
`a`-th `createConnection(config)` call (the external world may answer
differently each attempt). On success the connection and config are
stored, the retry counter is reset to 0 and the per-connection health
check starts; on failure the retry counter is incremented and, while
attempts remain, the loop sleeps `retryDelay * 2 ^ (attempt - 1)` and
retries; when none remain the fatal error carrying the last failure is
thrown. -/
def runAttempts (connector : Nat → Except String ConnHandle)
    (connectionId : String) (config : ConnectionConfig) :
    List Nat → String → PoolState → ConnectOutcome
  | [], lastErr, st =>
      { state := st, result := .error (fatalMessage connectionId lastErr)
        invocations := 0, delays := [] }
  | attempt :: rest, _, st =>
      match connector attempt with
      | .ok conn =>
          { state := storeConnection connectionId config conn st
            result := .ok conn, invocations := 1, delays := [] }
      | .error e =>
          let st := bumpRetry connectionId st
          match rest with
          | [] =>
              { state := st, result := .error (fatalMessage connectionId e)
                invocations := 1, delays := [] }
          | b :: rest' =>
              let d := retryDelay * 2 ^ (attempt - 1)
              let out := runAttempts connector connectionId config (b :: rest') e st
              { state := out.state, result := out.result
                invocations := out.invocations + 1, delays := d :: out.delays }

/-- `createConnectionWithRetry` (lines 32-67): run the attempt loop for
attempts `1, ..., maxAttempts`. -/
def createConnectionWithRetry (connector : Nat → Except String ConnHandle)
    (connectionId : String) (config : ConnectionConfig) (st : PoolState) :
    ConnectOutcome :=
  runAttempts connector connectionId config (List.range' 1 maxAttempts) "" st

/-- `getConnection` (lines 19-30): return the stored handle when a record
exists and its health probe succeeds, otherwise create with retry.
`healthy` is the outcome of `isConnectionHealthy` for each handle. -/
def getConnection (healthy : ConnHandle → Bool)
    (connector : Nat → Except String ConnHandle)
    (connectionId : String) (config : ConnectionConfig) (st : PoolState) :
    ConnectOutcome :=
  match st.connections.lookup connectionId with
  | some conn =>
      if healthy conn then
        { state := st, result := .ok conn, invocations := 0, delays := [] }
      else createConnectionWithRetry connector connectionId config st
  | none => createConnectionWithRetry connector connectionId config st

/-- `removeConnection` (lines 197-218): deletes the record from all three
maps and cancels the per-connection timer (closing the handle has no
observable effect on the pool state). -/
def removeConnection (connectionId : String) (st : PoolState) : PoolState :=
  { connections := mapDelete st.connections connectionId
    connectionConfigs := mapDelete st.connectionConfigs connectionId
    retryAttempts := mapDelete st.retryAttempts connectionId
    healthChecks := st.healthChecks.filter (fun h => h ≠ connectionId)
    globalSweepActive := st.globalSweepActive }

/-- `closeAll` (lines 246-256): `removeConnection` for every key of the
connections map, then clear the per-connection timer map. The pool-wide
sweep interval from the constructor is not touched — the code never
stored its handle. -/
def closeAll (st : PoolState) : PoolState :=
  let st1 := (st.connections.map Prod.fst).foldl
    (fun s connectionId => removeConnection connectionId s) st
  { st1 with healthChecks := [] }

/-- The synchronously returned `IConnectionStats` record. -/
structure ConnectionStats where
  connected : Bool
  uptime : Nat
  activeConnections : Nat
  totalQueries : Nat
  averageQueryTime : Nat
  deriving Repr, DecidableEq

/-- What one `getConnectionStats` call produces: the stats object it
returns, plus the asynchronous health-probe callbacks it scheduled with
`.then` — callbacks that would bump the local `healthyConnections`
counter only after the stats object has been built and returned. -/
structure StatsSnapshot where
  stats : ConnectionStats
  deferredProbes : List String

/-- `getConnectionStats` (lines 220-244): `healthyConnections` starts at
0 and is only incremented inside the deferred `.then` callbacks, so the
returned `activeConnections` is the initial 0; `totalQueries` is the
literal 0 from line 239. `now` stands for `Date.now()`. -/
def getConnectionStats (now : Nat) (st : PoolState) : StatsSnapshot :=
  let healthyConnections : Nat := 0
  let deferred := (st.connections.map Prod.fst).filter
    (fun connectionId => (st.connectionConfigs.lookup connectionId).isSome)
  { stats :=
      { connected := decide (st.connections.length > 0)
        uptime := now
        activeConnections := healthyConnections
        totalQueries := 0
        averageQueryTime := 0 }
    deferredProbes := deferred }

/-! Concrete inputs used by the claim theorems, their witnesses and
counterexamples. -/

/-- The leaf filter of the specification's concrete scenario. -/
def ageGt18Leaf : QueryFilter := mkLeaf "age" "gt" (vNum 18)

/-- A second leaf for building a two-leaf composite. -/
def nameEqAnnLeaf : QueryFilter := mkLeaf "name" "eq" (vStr "Ann")

/-- A two-leaf AND composite in the shape the specification's data model
describes (only `logicalOperator` and `children` present). -/
def andComposite : QueryFilter := mkComposite "and" [ageGt18Leaf, nameEqAnnLeaf]

/-- Query carrying only the `age gt 18` filter. -/
def qAgeGt18 : Query :=
  { filter := some ageGt18Leaf, select := none, orderBy := none, pagination := none }

/-- Query carrying the composite filter. -/
def qComposite : Query :=
  { filter := some andComposite, select := none, orderBy := none, pagination := none }

/-- Query with pagination `take = 1` and nothing else. -/
def qTake1 : Query :=
  { filter := none, select := none, orderBy := none
    pagination := some { skip := none, take := some 1 } }

/-- Query with a pagination object whose `take` is absent. -/
def qPagNoTake : Query :=
  { filter := none, select := none, orderBy := none
    pagination := some { skip := none, take := none } }

/-- A two-row table with a single `id` column. -/
def pageTable : Table :=
  { cols := ["id"], rows := [[("id", vNum 1)], [("id", vNum 2)]] }

/-- A connector that fails on every attempt. -/
def alwaysFailConnector : Nat → Except String ConnHandle :=
  fun a => .error ("fail " ++ toString a)

/-- A connector that fails exactly twice, then succeeds with handle 42. -/
def twiceFailConnector : Nat → Except String ConnHandle :=
  fun a => if a ≤ 2 then .error ("fail " ++ toString a) else .ok 42

/-- A health probe that always reports unhealthy. -/
def neverHealthy : ConnHandle → Bool := fun _ => false

/-- A sample config. -/
def sqliteConfig : ConnectionConfig := { ctype := "sqlite" }

/-- A pool state holding a stale (unhealthy) record for id "db". -/
def staleState : PoolState :=
  { connections := [("db", 7)]
    connectionConfigs := [("db", sqliteConfig)]
    retryAttempts := []
    healthChecks := ["db"]
    globalSweepActive := true }

/-! Helper lemmas shared by several developments below. -/

/-- Inserting into a sorted list adds exactly one element. -/
theorem length_insertSortedBy (le : α → α → Bool) (x : α) (l : List α) :
    (insertSortedBy le x l).length = l.length + 1 := by
  induction l with
  | nil => rfl
  | cons y ys ih =>
      simp only [insertSortedBy]
      split <;> simp [ih]

/-- Insertion sort preserves length. -/
theorem length_isortBy (le : α → α → Bool) (l : List α) :
    (isortBy le l).length = l.length := by
  induction l with
  | nil => rfl
  | cons x xs ih => simp [isortBy, length_insertSortedBy, ih]

/-- Multi-key sorting preserves length. -/
theorem length_sortRows (specs : List OrderSpec) (rows : List Row) :
    (sortRows specs rows).length = rows.length := by
  unfold sortRows
  generalize specs.reverse = l
  induction l generalizing rows with
  | nil => rfl
  | cons o os ih => simp [List.foldl_cons, ih, length_isortBy]

/-- Taking a prefix never lengthens a list. -/
theorem length_take_le_length (n : Nat) (l : List α) :
    (l.take n).length ≤ l.length := by
  rw [List.length_take]; exact Nat.min_le_right _ _

/-- Looking up the key just set returns the value just stored. -/
theorem lookup_mapSet_self (m : List (String × α)) (k : String) (v : α) :
    (mapSet m k v).lookup k = some v := by
  induction m with
  | nil => simp [mapSet, mapDelete, List.lookup]
  | cons e es ih =>
      obtain ⟨ek, ev⟩ := e
      by_cases he : ek = k
      · have hstep : mapSet ((ek, ev) :: es) k v = mapSet es k v := by
          simp [mapSet, mapDelete, List.filter_cons, he]
        rw [hstep]; exact ih
      · have hne : (k == ek) = false := by
          rw [beq_eq_false_iff_ne]; exact fun h => he h.symm
        have hstep : mapSet ((ek, ev) :: es) k v = (ek, ev) :: mapSet es k v := by
          simp [mapSet, mapDelete, List.filter_cons, he]
        rw [hstep]
        simp only [List.lookup, hne]
        exact ih

/-- The page the SQLite statement returns is never longer than the
table. -/
theorem sqliteRunRows_length_le (table : Table) (q : Query) :
    (sqliteRunRows table q).length ≤ table.rows.length := by
  have hw : (sqliteWhereRows table q).length ≤ table.rows.length := by
    unfold sqliteWhereRows
    split
    · exact List.length_filter_le _ _
    · exact Nat.le_refl _
  have ho : (sqliteOrderedRows table q).length ≤ table.rows.length := by
    unfold sqliteOrderedRows
    split
    · rw [length_sortRows]; exact hw
    · exact hw
  have hs : (sqliteSkippedRows table q).length ≤ table.rows.length := by
    unfold sqliteSkippedRows
    split
    · split
      · split
        · exact Nat.le_trans (by rw [List.length_drop]; omega) ho
        · exact ho
      · exact ho
    · exact ho
  have hp : (sqlitePagedRows table q).length ≤ table.rows.length := by
    unfold sqlitePagedRows
    split
    · split
      · exact hs
      · exact Nat.le_trans (length_take_le_length _ _) hs
    · exact hs
  unfold sqliteRunRows
  split
  · split
    · rw [List.length_map]; exact hp
    · exact hp
  · exact hp

/-- The page the Mongo cursor yields is never longer than the set of
matching documents. -/
theorem mongoRunRows_length_le (docs : List Row) (q : Query) :
    (mongoRunRows docs q).length ≤ (mongoMatchedRows docs q).length := by
  have ho : (mongoOrderedRows docs q).length = (mongoMatchedRows docs q).length := by
    unfold mongoOrderedRows
    split
    · rw [length_sortRows]
    · rfl
  have hs : (mongoSkippedRows docs q).length ≤ (mongoMatchedRows docs q).length := by
    unfold mongoSkippedRows
    split
    · rw [← ho, List.length_drop]; omega
    · rw [← ho]
  have hp : (mongoPagedRows docs q).length ≤ (mongoMatchedRows docs q).length := by
    unfold mongoPagedRows
    split
    · exact Nat.le_trans (length_take_le_length _ _) hs
    · exact hs
  unfold mongoRunRows
  split
  · split
    · rw [List.length_map]; exact hp
    · exact hp
  · exact hp

/-- Claim C1: the specification asserts that all three translators recurse
through a composite node's children and preserve the logical grouping. The
code does not: evaluated at the two-leaf AND composite, every translator
falls into its default leaf arm, emits a fixed form mentioning neither
child (`undefined = ?` with an undefined parameter for SQLite, the object
entry `undefined: undefined` for MongoDB, `undefined eq null` for HTTP
OData), and produces the same output as a composite with no children at
all. -/
theorem claim_C1_composite_children_ignored :
    convertODataFilterToSQL andComposite [] = ("undefined = ?", [vUndefined]) ∧
    convertODataFilterToMongo andComposite = [("undefined", MongoCond.value vUndefined)] ∧
    convertFilterToOData andComposite = "undefined eq null" ∧
    convertODataFilterToSQL andComposite [] =
      convertODataFilterToSQL (mkComposite "and" []) [] ∧
    convertODataFilterToMongo andComposite =
      convertODataFilterToMongo (mkComposite "or" []) :=
  ⟨rfl, rfl, rfl, rfl, rfl⟩

/-- Claim C2 counterexample: the unknown operator `like` is translated by
the SQLite and MongoDB translators exactly as `eq` would be (no
translation error is raised — the translators are total), and the HTTP
translator even translates the nominally supported `notin` as an equality
because it has no case for it. -/
theorem claim_C2_unknown_op_counterexample :
    convertODataFilterToSQL (mkLeaf "age" "like" (vNum 21)) [] =
      convertODataFilterToSQL (mkLeaf "age" "eq" (vNum 21)) [] ∧
    convertODataFilterToMongo (mkLeaf "age" "like" (vNum 21)) =
      convertODataFilterToMongo (mkLeaf "age" "eq" (vNum 21)) ∧
    convertFilterToOData (mkLeaf "tag" "notin" (vStr "x")) = "tag eq 'x'" :=
  ⟨rfl, rfl, rfl⟩

/-- Claim C5: the leaf filter `age gt 18` translates to the SQL fragment
`age > ?` with bound parameter list `[18]`, to the Mongo filter object
`age: ($gt: 18)`, and to a query string containing
`$filter=age%20gt%2018`. -/
theorem claim_C5_age_gt_18_translation :
    convertODataFilterToSQL ageGt18Leaf [] = ("age > ?", [vNum 18]) ∧
    convertODataFilterToMongo ageGt18Leaf = [("age", MongoCond.cmp "$gt" (vNum 18))] ∧
    buildODataQueryString qAgeGt18 = "?" ++ ("$filter=age%20gt%2018" ++ "&$count=true") :=
  ⟨rfl, rfl, rfl⟩

/-- Claim C6 counterexample: on a two-row table, a query with pagination
`take = 1` succeeds with a one-row page but `metadata.count = 2` (the
SQLite provider counts the whole table; the MongoDB provider counts all
filter matches), so the count does not equal the page length. -/
theorem claim_C6_count_counterexample :
    (sqliteExecuteQuery pageTable "users" qTake1).success = true ∧
    (sqliteExecuteQuery pageTable "users" qTake1).data.length = 1 ∧
    (sqliteExecuteQuery pageTable "users" qTake1).metadata.count = 2 ∧
    (mongoExecuteQuery none pageTable.rows "users" qTake1).success = true ∧
    (mongoExecuteQuery none pageTable.rows "users" qTake1).data.length = 1 ∧
    (mongoExecuteQuery none pageTable.rows "users" qTake1).metadata.count = 2 :=
  ⟨rfl, rfl, rfl, rfl, rfl, rfl⟩

/-- Claim C7 counterexample: when the backend raises (SQLite: the
statement generated for the composite filter references the non-existent
column `undefined`; MongoDB: a driver error), the failed result's error
object has no `suggestion` — refuting the claim that every error object
carries an actionable suggestion string. -/
theorem claim_C7_no_suggestion_counterexample :
    (sqliteExecuteQuery pageTable "users" qComposite).success = false ∧
    (sqliteExecuteQuery pageTable "users" qComposite).errors.map
      UserFriendlyError.suggestion = [none] ∧
    (mongoExecuteQuery (some "server selection timed out") pageTable.rows
      "users" qAgeGt18).success = false ∧
    (mongoExecuteQuery (some "server selection timed out") pageTable.rows
      "users" qAgeGt18).errors.map UserFriendlyError.suggestion = [none] :=
  ⟨rfl, rfl, rfl, rfl⟩

/-- Claim C8 counterexample: after `closeAll` (even twice) on a fresh
pool, the connection map and the per-connection timer map are empty, but
the pool-wide health-check sweep interval started by the constructor is
still active — the code never stores or clears its handle — refuting
"no active health-check timers". -/
theorem claim_C8_sweep_timer_counterexample :
    (closeAll (closeAll newPool)).connections = [] ∧
    (closeAll (closeAll newPool)).healthChecks = [] ∧
    (closeAll (closeAll newPool)).globalSweepActive = true :=
  ⟨rfl, rfl, rfl⟩

/-- Claim C4 counterexample: with a connector that fails exactly twice
and then succeeds, `createConnectionWithRetry` makes exactly 3 connector
invocations, but the stored retry count is 0, not 2: the success branch
resets `retryAttempts` to 0 instead of storing attempts−1. -/
theorem claim_C4_retry_count_counterexample :
    (createConnectionWithRetry twiceFailConnector "db" sqliteConfig newPool).invocations = 3 ∧
    (createConnectionWithRetry twiceFailConnector "db" sqliteConfig
      newPool).state.retryAttempts.lookup "db" = some 0 ∧
    (createConnectionWithRetry twiceFailConnector "db" sqliteConfig
      newPool).state.retryAttempts.lookup "db" ≠ some 2 := by
  refine ⟨rfl, rfl, ?_⟩
  intro h
  rw [show (createConnectionWithRetry twiceFailConnector "db" sqliteConfig
    newPool).state.retryAttempts.lookup "db" = some 0 from rfl] at h
  exact absurd (Option.some.inj h) (by omega)

/-- Claim C3 counterexample: starting from a pool holding a stale
unhealthy record for "db", a connector failing on every attempt makes
`getConnection` throw the fatal error after 4 invocations — yet the pool
still holds a connection record for "db" afterwards (the stale one),
refuting "stores no connection in the pool for that id". -/
theorem claim_C3_stale_record_counterexample :
    (getConnection neverHealthy alwaysFailConnector "db" sqliteConfig
      staleState).invocations = 4 ∧
    (getConnection neverHealthy alwaysFailConnector "db" sqliteConfig
      staleState).result = Except.error (fatalMessage "db" "fail 4") ∧
    (getConnection neverHealthy alwaysFailConnector "db" sqliteConfig
      staleState).state.connections.lookup "db" = some 7 :=
  ⟨rfl, rfl, rfl⟩

/-- Claim C10: for every pool state, the stats record returned by
`getConnectionStats` has `activeConnections = 0` and `totalQueries = 0`:
the healthy count is only incremented inside the asynchronous probe
callbacks the call schedules, after the record has been built, and
`totalQueries` is a literal 0. -/
theorem claim_C10_stats_always_zero (now : Nat) (st : PoolState) :
    (getConnectionStats now st).stats.activeConnections = 0 ∧
    (getConnectionStats now st).stats.totalQueries = 0 :=
  ⟨rfl, rfl⟩

/-- The attempt loop never invokes the connector more often than there
are attempt numbers left. -/
theorem runAttempts_invocations_le (connector : Nat → Except String ConnHandle)
    (connectionId : String) (config : ConnectionConfig) :
    ∀ (l : List Nat) (e : String) (st : PoolState),
      (runAttempts connector connectionId config l e st).invocations ≤ l.length := by
  intro l
  induction l with
  | nil => intro e st; exact Nat.le_refl 0
  | cons a rest ih =>
      intro e st
      rw [runAttempts.eq_def]
      cases hc : connector a with
      | ok conn => simp [hc]
      | error m =>
          cases rest with
          | nil => simp [hc]
          | cons b rest' =>
              have hrec := ih m (bumpRetry connectionId st)
              simp only [hc, List.length_cons]
              simp only [List.length_cons] at hrec
              omega

/-- When no stored connection passes its health probe, `getConnection`
falls through to `createConnectionWithRetry`. -/
theorem getConnection_no_healthy (healthy : ConnHandle → Bool)
    (connector : Nat → Except String ConnHandle) (connectionId : String)
    (config : ConnectionConfig) (st : PoolState)
    (hstale : ∀ c, st.connections.lookup connectionId = some c → healthy c = false) :
    getConnection healthy connector connectionId config st =
      createConnectionWithRetry connector connectionId config st := by
  unfold getConnection
  cases hlk : st.connections.lookup connectionId with
  | none => rfl
  | some c => simp [hstale c hlk]

/-- Claim C3 (amended): when no healthy connection exists, `getConnection`
invokes the connector at most `maxRetries + 1 = 4` times; with a connector
failing on attempts 1-4 it makes exactly 4 invocations, sleeps
`1000 * 2 ^ (attempt - 1)` ms between consecutive attempts
(1000, 2000, 4000), throws the fatal error carrying the last underlying
failure, and leaves the connections map unchanged — in particular it
stores no new connection, but a pre-existing unhealthy record for the id
is retained rather than removed. -/
theorem claim_C3_retry_exhaustion_amended (healthy : ConnHandle → Bool)
    (connector : Nat → Except String ConnHandle) (connectionId : String)
    (config : ConnectionConfig) (st : PoolState) (m1 m2 m3 m4 : String)
    (hstale : ∀ c, st.connections.lookup connectionId = some c → healthy c = false)
    (h1 : connector 1 = .error m1) (h2 : connector 2 = .error m2)
    (h3 : connector 3 = .error m3) (h4 : connector 4 = .error m4) :
    (∀ anyConnector : Nat → Except String ConnHandle,
      (getConnection healthy anyConnector connectionId config st).invocations ≤ maxAttempts) ∧
    (getConnection healthy connector connectionId config st).invocations = 4 ∧
    (getConnection healthy connector connectionId config st).delays = [1000, 2000, 4000] ∧
    (getConnection healthy connector connectionId config st).result =
      Except.error (fatalMessage connectionId m4) ∧
    (getConnection healthy connector connectionId config st).state.connections =
      st.connections := by
  have hrange : List.range' 1 maxAttempts = [1, 2, 3, 4] := rfl
  refine ⟨fun anyConnector => ?_, ?_, ?_, ?_, ?_⟩
  · rw [getConnection_no_healthy healthy anyConnector connectionId config st hstale]
    unfold createConnectionWithRetry
    rw [hrange]
    exact runAttempts_invocations_le anyConnector connectionId config [1, 2, 3, 4] "" st
  all_goals
    rw [getConnection_no_healthy healthy connector connectionId config st hstale]
    unfold createConnectionWithRetry
    rw [hrange]
    simp [runAttempts, h1, h2, h3, h4, bumpRetry, retryDelay]

/-- Claim C3 witness: the amended theorem applied to an always-failing
connector against a fresh pool. -/
theorem claim_C3_retry_exhaustion_witness :
    (getConnection neverHealthy alwaysFailConnector "db" sqliteConfig newPool).invocations = 4 ∧
    (getConnection neverHealthy alwaysFailConnector "db" sqliteConfig newPool).delays =
      [1000, 2000, 4000] ∧
    (getConnection neverHealthy alwaysFailConnector "db" sqliteConfig newPool).result =
      Except.error (fatalMessage "db" "fail 4") ∧
    (getConnection neverHealthy alwaysFailConnector "db" sqliteConfig
      newPool).state.connections = newPool.connections := by
  have h := claim_C3_retry_exhaustion_amended neverHealthy alwaysFailConnector "db"
    sqliteConfig newPool "fail 1" "fail 2" "fail 3" "fail 4"
    (fun c hc => by simp [newPool, List.lookup] at hc) rfl rfl rfl rfl
  exact ⟨h.2.1, h.2.2.1, h.2.2.2.1, h.2.2.2.2⟩

/-- Claim C4 (amended): with a connector failing exactly twice then
succeeding, `getConnection` succeeds after exactly 3 connector
invocations, but the pool stores the new connection's retry count as 0 —
the success branch resets `retryAttempts` rather than recording
attempts−1. -/
theorem claim_C4_retry_reset_amended (healthy : ConnHandle → Bool)
    (connector : Nat → Except String ConnHandle) (connectionId : String)
    (config : ConnectionConfig) (st : PoolState) (c : ConnHandle) (m1 m2 : String)
    (hstale : ∀ conn, st.connections.lookup connectionId = some conn → healthy conn = false)
    (h1 : connector 1 = .error m1) (h2 : connector 2 = .error m2)
    (h3 : connector 3 = .ok c) :
    (getConnection healthy connector connectionId config st).invocations = 3 ∧
    (getConnection healthy connector connectionId config st).result = Except.ok c ∧
    (getConnection healthy connector connectionId config
      st).state.retryAttempts.lookup connectionId = some 0 ∧
    (getConnection healthy connector connectionId config
      st).state.connections.lookup connectionId = some c := by
  have hrange : List.range' 1 maxAttempts = [1, 2, 3, 4] := rfl
  rw [getConnection_no_healthy healthy connector connectionId config st hstale]
  unfold createConnectionWithRetry
  rw [hrange]
  refine ⟨?_, ?_, ?_, ?_⟩ <;>
    simp [runAttempts, h1, h2, h3, storeConnection, startConnectionHealthCheck,
      lookup_mapSet_self]

/-- Claim C4 witness: the amended theorem applied to the
fails-twice-then-succeeds connector against a fresh pool. -/
theorem claim_C4_retry_reset_witness :
    (getConnection neverHealthy twiceFailConnector "db" sqliteConfig newPool).invocations = 3 ∧
    (getConnection neverHealthy twiceFailConnector "db" sqliteConfig newPool).result =
      Except.ok 42 ∧
    (getConnection neverHealthy twiceFailConnector "db" sqliteConfig
      newPool).state.retryAttempts.lookup "db" = some 0 := by
  have h := claim_C4_retry_reset_amended neverHealthy twiceFailConnector "db"
    sqliteConfig newPool 42 "fail 1" "fail 2"
    (fun c hc => by simp [newPool, List.lookup] at hc) rfl rfl rfl
  exact ⟨h.1, h.2.1, h.2.2.1⟩

/-- Claim C2 (amended): an operator outside the supported set is not a
translation error: every translator's default arm translates it exactly
as `eq`. For the HTTP translator the supported set does not even include
`notin`, which therefore also collapses to an equality. -/
theorem claim_C2_unknown_op_amended (f o : String) (v : JSValue) (ps : List JSValue) :
    (o ∉ (["eq", "ne", "lt", "le", "gt", "ge", "in", "notin", "contains",
        "startswith", "endswith"] : List String) →
      convertODataFilterToSQL (mkLeaf f o v) ps =
        convertODataFilterToSQL (mkLeaf f "eq" v) ps ∧
      convertODataFilterToMongo (mkLeaf f o v) =
        convertODataFilterToMongo (mkLeaf f "eq" v)) ∧
    (o ∉ (["eq", "ne", "lt", "le", "gt", "ge", "in", "contains",
        "startswith", "endswith"] : List String) →
      convertFilterToOData (mkLeaf f o v) = convertFilterToOData (mkLeaf f "eq" v)) := by
  refine ⟨fun h => ⟨?_, ?_⟩, fun h => ?_⟩
  · show convertODataFilterToSQL (mkLeaf f o v) ps = (f ++ " = ?", ps ++ [v])
    simp only [List.mem_cons, List.not_mem_nil, or_false, not_or] at h
    obtain ⟨k1, k2, k3, k4, k5, k6, k7, k8, k9, k10, k11⟩ := h
    simp [convertODataFilterToSQL, mkLeaf, QueryFilter.op, QueryFilter.field,
      QueryFilter.value, fieldStr, k1, k2, k3, k4, k5, k6, k7, k8, k9, k10, k11]
  · show convertODataFilterToMongo (mkLeaf f o v) = [(f, MongoCond.value v)]
    simp only [List.mem_cons, List.not_mem_nil, or_false, not_or] at h
    obtain ⟨k1, k2, k3, k4, k5, k6, k7, k8, k9, k10, k11⟩ := h
    simp [convertODataFilterToMongo, mkLeaf, QueryFilter.op, QueryFilter.field,
      QueryFilter.value, fieldStr, k1, k2, k3, k4, k5, k6, k7, k8, k9, k10, k11]
  · show convertFilterToOData (mkLeaf f o v) = f ++ " eq " ++ formatODataValue v
    simp only [List.mem_cons, List.not_mem_nil, or_false, not_or] at h
    obtain ⟨k1, k2, k3, k4, k5, k6, k7, k8, k9, k10⟩ := h
    simp [convertFilterToOData, mkLeaf, QueryFilter.op, QueryFilter.field,
      QueryFilter.value, fieldStr, k1, k2, k3, k4, k5, k6, k7, k8, k9, k10]

/-- Claim C2 witness: the amended theorem applied to the unsupported
operator `like`. -/
theorem claim_C2_unknown_op_witness :
    convertODataFilterToSQL (mkLeaf "score" "like" (vNum 5)) [] =
      convertODataFilterToSQL (mkLeaf "score" "eq" (vNum 5)) [] ∧
    convertFilterToOData (mkLeaf "score" "like" (vNum 5)) =
      convertFilterToOData (mkLeaf "score" "eq" (vNum 5)) := by
  have h := claim_C2_unknown_op_amended "score" "like" (vNum 5) []
  exact ⟨(h.1 (by decide)).1, h.2 (by decide)⟩

/-- Claim C6 (amended): on a successful `executeQuery`, `metadata.count`
is not the page length: the SQLite provider returns the total number of
rows in the table (`SELECT COUNT(*)`, ignoring filter and pagination) and
the MongoDB provider the number of documents matching the filter
(`countDocuments`, ignoring pagination); in both cases the page length is
only bounded by the count. -/
theorem claim_C6_count_semantics_amended (table : Table) (docs : List Row)
    (e1 e2 : String) (q : Query)
    (hok : (sqliteExecuteQuery table e1 q).success = true) :
    (sqliteExecuteQuery table e1 q).metadata.count = table.rows.length ∧
    (sqliteExecuteQuery table e1 q).data.length ≤
      (sqliteExecuteQuery table e1 q).metadata.count ∧
    (mongoExecuteQuery none docs e2 q).metadata.count = (mongoMatchedRows docs q).length ∧
    (mongoExecuteQuery none docs e2 q).data.length ≤
      (mongoExecuteQuery none docs e2 q).metadata.count := by
  have hprep : sqlitePrepareError table q = none := by
    cases hp : sqlitePrepareError table q with
    | none => rfl
    | some m =>
        have hfail : (sqliteExecuteQuery table e1 q).success = false := by
          unfold sqliteExecuteQuery
          rw [hp]
          rfl
        rw [hfail] at hok
        cases hok
  have hrun : sqliteExecuteQuery table e1 q =
      { data := sqliteRunRows table q
        success := true
        errors := []
        metadata := { count := table.rows.length, cacheStatus := "miss" } } := by
    unfold sqliteExecuteQuery
    rw [hprep]
  rw [hrun]
  exact ⟨rfl, sqliteRunRows_length_le table q, rfl, mongoRunRows_length_le docs q⟩

/-- Claim C6 witness: the amended theorem applied to the two-row table
and the `take = 1` query. -/
theorem claim_C6_count_semantics_witness :
    (sqliteExecuteQuery pageTable "users" qTake1).metadata.count = pageTable.rows.length ∧
    (mongoExecuteQuery none pageTable.rows "users" qTake1).metadata.count =
      (mongoMatchedRows pageTable.rows qTake1).length := by
  have h := claim_C6_count_semantics_amended pageTable pageTable.rows "users" "users"
    qTake1 rfl
  exact ⟨h.1, h.2.2.1⟩

/-- Claim C7 (amended): when the backend raises during `executeQuery`,
both providers return a structured failed result instead of throwing:
`success = false` and a single error carrying the machine code
`QUERY_EXECUTION_FAILED`, a human message wrapping the backend failure,
severity and the actionable flag — but no `suggestion` string; the
error-path error objects of `executeQuery` (and the CRUD catch branches)
omit it. -/
theorem claim_C7_structured_failure_amended (table : Table) (docs : List Row)
    (e1 e2 m : String) (q : Query)
    (hprep : sqlitePrepareError table q = some m) :
    ((sqliteExecuteQuery table e1 q).success = false ∧
     (sqliteExecuteQuery table e1 q).errors.length = 1 ∧
     ∀ err ∈ (sqliteExecuteQuery table e1 q).errors,
       err.code = "QUERY_EXECUTION_FAILED" ∧
       err.message = "Query execution failed: " ++ m ∧
       err.severity = "error" ∧ err.actionable = true ∧ err.suggestion = none) ∧
    ((mongoExecuteQuery (some m) docs e2 q).success = false ∧
     (mongoExecuteQuery (some m) docs e2 q).errors.length = 1 ∧
     ∀ err ∈ (mongoExecuteQuery (some m) docs e2 q).errors,
       err.code = "QUERY_EXECUTION_FAILED" ∧
       err.message = "Query execution failed: " ++ m ∧
       err.severity = "error" ∧ err.actionable = true ∧ err.suggestion = none) := by
  have hs : sqliteExecuteQuery table e1 q = sqliteQueryFailure m := by
    unfold sqliteExecuteQuery
    rw [hprep]
  have hmg : mongoExecuteQuery (some m) docs e2 q = mongoQueryFailure m := rfl
  rw [hs, hmg]
  refine ⟨⟨rfl, rfl, ?_⟩, rfl, rfl, ?_⟩ <;>
    (intro err herr
     simp only [sqliteQueryFailure, mongoQueryFailure, List.mem_singleton] at herr
     subst herr
     exact ⟨rfl, rfl, rfl, rfl, rfl⟩)

/-- Claim C7 witness: the amended theorem applied to the composite-filter
query whose generated SQL references the non-existent column
`undefined`. -/
theorem claim_C7_structured_failure_witness :
    (sqliteExecuteQuery pageTable "users" qComposite).errors.length = 1 ∧
    (mongoExecuteQuery (some "no such column: undefined") pageTable.rows "users"
      qComposite).success = false := by
  have h := claim_C7_structured_failure_amended pageTable pageTable.rows "users" "users"
    "no such column: undefined" qComposite rfl
  exact ⟨h.1.2.1, h.2.1⟩

/-- Removing every key of the connections map empties it. -/
theorem foldl_remove_connections_nil (ids : List String) (st : PoolState)
    (h : ∀ e ∈ st.connections, e.1 ∈ ids) :
    ((ids.foldl (fun s i => removeConnection i s) st).connections) = [] := by
  induction ids generalizing st with
  | nil =>
      exact List.eq_nil_iff_forall_not_mem.mpr
        (fun e he => absurd (h e he) (List.not_mem_nil e.1))
  | cons i ids ih =>
      rw [List.foldl_cons]
      apply ih
      intro e he
      have he' : e ∈ st.connections ∧ e.1 ≠ i := by
        simpa [removeConnection, mapDelete, List.mem_filter] using he
      rcases List.mem_cons.mp (h e he'.1) with h' | h'
      · exact absurd h' he'.2
      · exact h'

/-- The fold over `removeConnection` never touches the pool-wide sweep
flag. -/
theorem foldl_remove_sweep (ids : List String) (st : PoolState) :
    ((ids.foldl (fun s i => removeConnection i s) st).globalSweepActive) =
      st.globalSweepActive := by
  induction ids generalizing st with
  | nil => rfl
  | cons i ids ih => rw [List.foldl_cons, ih]; rfl

/-- `closeAll` empties the connections map. -/
theorem closeAll_connections_nil (st : PoolState) : (closeAll st).connections = [] := by
  exact foldl_remove_connections_nil _ _ (fun e he => List.mem_map_of_mem Prod.fst he)

/-- `closeAll` on a pool with no connections and no per-connection timers
is the identity. -/
theorem closeAll_of_empty (p : PoolState) (hc : p.connections = [])
    (hh : p.healthChecks = []) : closeAll p = p := by
  obtain ⟨c, cc, ra, hcs, g⟩ := p
  simp only at hc hh
  subst hc
  subst hh
  rfl

/-- Claim C8 (amended): `closeAll` is idempotent and safe on the empty
pool; afterwards `getConnectionStats().connected = false`, the pool holds
no connections and no per-connection health-check timers — but the
pool-wide sweep interval started in the constructor keeps running (the
code never cancels it). -/
theorem claim_C8_teardown_amended (now : Nat) (st : PoolState) :
    closeAll (closeAll st) = closeAll st ∧
    (getConnectionStats now (closeAll st)).stats.connected = false ∧
    (closeAll st).connections = [] ∧
    (closeAll st).healthChecks = [] ∧
    (closeAll st).globalSweepActive = st.globalSweepActive := by
  have hc := closeAll_connections_nil st
  refine ⟨closeAll_of_empty _ hc rfl, ?_, hc, rfl, foldl_remove_sweep _ _⟩
  simp [getConnectionStats, hc]

/-- Claim C9: for every query whose pagination object is present with
`take` absent or 0, the generated SQLite statement contains `LIMIT 50`
and the MongoDB cursor limit is 50 — a default page size of 50 stated
nowhere in the specification. -/
theorem claim_C9_default_page_limit (entityName : String) (q : Query) (p : Pagination)
    (hp : q.pagination = some p) (ht : p.take = none ∨ p.take = some 0) :
    (∃ pre post, sqliteSQL entityName q = pre ++ (" LIMIT 50" ++ post)) ∧
    mongoLimitValue q = 50 := by
  have hl : sqliteLimitValue p = 50 := by
    rcases ht with h | h <;> simp [sqliteLimitValue, h]
  constructor
  · refine ⟨sqliteCoreSQL entityName q, sqliteOffsetSuffix p, ?_⟩
    unfold sqliteSQL sqlitePaginationSuffix
    rw [hp]
    dsimp only
    rw [hl]
    rfl
  · unfold mongoLimitValue
    rw [hp]
    rcases ht with h | h <;> simp [h]

/-- Claim C9 witness: the theorem applied to a query whose pagination has
no `take`. -/
theorem claim_C9_default_page_limit_witness :
    (∃ pre post, sqliteSQL "users" qPagNoTake = pre ++ (" LIMIT 50" ++ post)) ∧
    mongoLimitValue qPagNoTake = 50 :=
  claim_C9_default_page_limit "users" qPagNoTake { skip := none, take := none }
    rfl (Or.inl rfl)

end ODataAR
